import Mathlib

/-
Verification of the Contract-generator frontend streaming client.

Shallow embedding of:
  - frontend/src/lib/api.js          (createJob, stopJob)
  - frontend/src/hooks/useEventSource.js  (the SSE stream manager: start/stop,
    the chunk/done/error listeners and the native onerror handler)
  - frontend/src/App.jsx             (handleGenerate, handleStop and the
    handlers it installs on the stream)

The backend pipeline (backend/contract_pipeline_v3.py) is not part of the
source tree here; the two claims about it (stage ordering and outline
clamping) are settled against definitions modelled from the spec, marked
`Modelled from the spec:` below.

React state setters are modelled as record updates on an explicit AppState;
timestamps (startedAt/finishedAt) are elided since no claim mentions them.
-/

namespace ContractGen

/-- JS falsy-string short-circuit `a || b` on strings: the empty string is
falsy, every other string truthy. -/
def jsOr (a b : String) : String := if a = "" then b else a

/-- JS `String.prototype.trim()`: strip leading and trailing whitespace. -/
def jsTrim (s : String) : String :=
  String.mk (((s.data.dropWhile Char.isWhitespace).reverse.dropWhile
    Char.isWhitespace).reverse)

/- ===================== frontend/src/lib/api.js ===================== -/

/-- An HTTP response as seen by `createJob`: `ok` and `status` from fetch, and
the `jobId` field of the parsed JSON body (used only on the ok path). -/
structure HttpResponse where
  ok : Bool
  status : Nat
  jobId : String
deriving Repr, DecidableEq

/-- An outbound fetch request; `payload` is the value carried in the JSON
body (the prompt for /generate, the job id for /stop). -/
structure Request where
  url : String
  method : String
  payload : String
deriving Repr, DecidableEq

/-- api.js `createJob(prompt)`: one POST /generate carrying the prompt; on
`res.ok` returns the parsed body's jobId, otherwise throws
`Generate failed: <status>`. -/
def createJob (prompt : String) (res : HttpResponse) :
    Request × Except String String :=
  (⟨"/generate", "POST", prompt⟩,
   if res.ok then Except.ok res.jobId
   else Except.error ("Generate failed: " ++ toString res.status))

/-- api.js `stopJob(jobId)`: the single POST /stop request it issues. -/
def stopJobRequest (jobId : String) : Request := ⟨"/stop", "POST", jobId⟩

/- ============ frontend/src/hooks/useEventSource.js (flags) ============ -/

/-- The stream manager's two refs: `esOpen` stands for `esRef.current ≠ null`
(an EventSource exists and has not been closed), `finished` is
`finishedRef.current`. -/
structure ESState where
  esOpen : Bool
  finished : Bool
deriving Repr, DecidableEq

/-- Net effect of `start(url, handlers)` on the refs: `stop()` closes any
previous source, then `finishedRef.current = false` and a fresh EventSource
is created and stored. -/
def startES : ESState := ⟨true, false⟩

/-- Effect of `stop()`: sets `finishedRef.current = true` and
closes/discards the current EventSource if there is one. -/
def stopES (st : ESState) : ESState := { st with esOpen := false, finished := true }

/-- Events that can arrive on the SSE connection: server-sent `chunk`,
`done` and custom `error` events, plus the native EventSource error
(connection loss). An empty `errEvt` data models `e.data` being absent. -/
inductive SEvent where
  | chunk (data : String)
  | done
  | errEvt (data : String)
  | connErr
deriving Repr, DecidableEq

/-- A callback invocation performed by the stream manager on the handlers
passed to `start`. -/
inductive Cb where
  | chunkCb (data : String)
  | doneCb
  | errCb (msg : String)
  | onerrorCb
deriving Repr, DecidableEq

/-- Whether a callback reports an error to the caller (the custom `error`
handler or the native `onerror` handler). -/
def Cb.isError : Cb → Bool
  | errCb _ => true
  | onerrorCb => true
  | _ => false

/-- One event arriving at the manager: a closed EventSource delivers
nothing; `chunk` always fires, `done` sets finished and closes, the custom
`error` listener and native `onerror` are both gated on
`finishedRef.current` and default their message. -/
def deliverES (st : ESState) (e : SEvent) : ESState × List Cb :=
  if st.esOpen = true then
    match e with
    | SEvent.chunk d => (st, [Cb.chunkCb d])
    | SEvent.done => ({ st with esOpen := false, finished := true }, [Cb.doneCb])
    | SEvent.errEvt d =>
        if st.finished = true then (st, [])
        else (st, [Cb.errCb (jsOr d "Streaming error")])
    | SEvent.connErr =>
        if st.finished = true then (st, [])
        else (st, [Cb.onerrorCb])
  else (st, [])

/-- Deliver a whole sequence of events, collecting the callbacks fired. -/
def runES (st : ESState) : List SEvent → ESState × List Cb
  | [] => (st, [])
  | e :: es =>
      let out := deliverES st e
      let rest := runES out.1 es
      (rest.1, out.2 ++ rest.2)

/- ===================== frontend/src/App.jsx ===================== -/

/-- The App component's React state (timestamps elided) together with the
stream manager's refs. -/
structure AppState where
  prompt : String
  html : String
  jobId : Option String
  isGenerating : Bool
  error : String
  stream : ESState
deriving Repr, DecidableEq

/-- The handlers App.jsx installs via `es.start`, applied to one callback:
chunk appends to html; done clears isGenerating; the error handler keeps an
existing message (`prev || msg || 'Streaming error'`); onerror keeps an
existing message (`prev || 'Connection lost while streaming.'`) and clears
isGenerating. -/
def applyCb (s : AppState) (c : Cb) : AppState :=
  match c with
  | Cb.chunkCb d => { s with html := s.html ++ d }
  | Cb.doneCb => { s with isGenerating := false }
  | Cb.errCb msg => { s with error := jsOr (jsOr s.error msg) "Streaming error" }
  | Cb.onerrorCb =>
      { s with error := jsOr s.error "Connection lost while streaming.",
               isGenerating := false }

/-- One SSE event as the App sees it: the manager filters/labels it, then
the App handlers run. -/
def deliverApp (s : AppState) (e : SEvent) : AppState :=
  (deliverES s.stream e).2.foldl applyCb { s with stream := (deliverES s.stream e).1 }

/-- Deliver a sequence of events to the App. -/
def runApp (s : AppState) : List SEvent → AppState
  | [] => s
  | e :: es => runApp (deliverApp s e) es

/-- App.jsx `handleGenerate`: empty/whitespace prompt short-circuits with an
error message; otherwise error/html are cleared and isGenerating set before
the try block, then `createJob` either yields a jobId and the stream is
started, or the catch sets the error, clears isGenerating and stops the
stream. Returns the new state and the requests issued. -/
def handleGenerate (s : AppState) (res : HttpResponse) :
    AppState × List Request :=
  if jsTrim s.prompt = "" then
    ({ s with error := "Please describe the business context first." }, [])
  else
    let out := createJob s.prompt res
    match out.2 with
    | Except.ok jid =>
        ({ s with error := "", html := "", isGenerating := true,
                  jobId := some jid, stream := startES }, [out.1])
    | Except.error msg =>
        ({ s with error := jsOr msg "Error", html := "", isGenerating := false,
                  stream := stopES s.stream }, [out.1])

/-- App.jsx `handleStop`: no jobId means immediate return; otherwise one
/stop request is issued whose outcome is swallowed (`try … catch \x7b\x7d`),
then the stream is stopped and isGenerating cleared. `stopOk` is the fate of
the stop request; the code ignores it. -/
def handleStop (s : AppState) (stopOk : Bool) : AppState × List Request :=
  match s.jobId with
  | none => (s, [])
  | some jid =>
      ({ s with stream := stopES s.stream, isGenerating := false },
       [stopJobRequest jid])

/- ===================== helper lemmas ===================== -/

theorem jsOr_empty (b : String) : jsOr "" b = b := by simp [jsOr]

theorem jsOr_ne (a b : String) (h : a ≠ "") : jsOr a b = a := by
  simp [jsOr, h]

theorem deliverES_closed (st : ESState) (e : SEvent) (h : st.esOpen = false) :
    deliverES st e = (st, []) := by
  simp [deliverES, h]

theorem runES_closed (evs : List SEvent) :
    ∀ st : ESState, st.esOpen = false → runES st evs = (st, []) := by
  induction evs with
  | nil => intro st _; rfl
  | cons e es ih =>
      intro st h
      simp [runES, deliverES_closed st e h, ih st h]

/- ===================== C5 ===================== -/

/-- C5: for every prompt, `createJob` issues one POST /generate request
carrying that prompt; when the response is ok it returns the parsed body's
job identifier, and when it is not ok it raises `Generate failed: <status>`
and yields no job identifier. -/
theorem createJob_spec (p : String) (res : HttpResponse) :
    (createJob p res).1 = ⟨"/generate", "POST", p⟩
    ∧ (res.ok = true → (createJob p res).2 = Except.ok res.jobId)
    ∧ (res.ok = false →
        (createJob p res).2
          = Except.error ("Generate failed: " ++ toString res.status)) := by
  refine ⟨rfl, ?_, ?_⟩ <;> intro h <;> simp [createJob, h]

theorem createJob_spec_witness :
    ((createJob "nda" ⟨true, 200, "j1"⟩).2 = Except.ok "j1")
    ∧ ((createJob "nda" ⟨false, 500, ""⟩).2
        = Except.error ("Generate failed: " ++ toString 500)) :=
  ⟨(createJob_spec "nda" ⟨true, 200, "j1"⟩).2.1 rfl,
   (createJob_spec "nda" ⟨false, 500, ""⟩).2.2 rfl⟩

/- ===================== C7 ===================== -/

/-- C7 counterexample: on a manager with no open stream and the finished
flag still false, `stop` is not a state no-op — it sets the finished flag. -/
theorem stop_noop_counterexample :
    stopES ⟨false, false⟩ ≠ (⟨false, false⟩ : ESState) := by
  decide

/-- C7 (amended): `stop` is idempotent — stopping twice leaves the same
state as stopping once — and calling it with no open stream never fails and
is observationally a no-op: nothing is closed (esOpen stays false) and any
sequence of events fires exactly the same callbacks as before the stop;
only the internal finished flag may change. -/
theorem stop_idempotent_safe (st : ESState) :
    stopES (stopES st) = stopES st
    ∧ (st.esOpen = false →
        (stopES st).esOpen = false
        ∧ ∀ evs : List SEvent, (runES (stopES st) evs).2 = (runES st evs).2) := by
  refine ⟨rfl, fun h => ⟨rfl, fun evs => ?_⟩⟩
  rw [runES_closed evs (stopES st) rfl, runES_closed evs st h]

theorem stop_idempotent_safe_witness :
    stopES (stopES ⟨false, false⟩) = stopES ⟨false, false⟩
    ∧ (stopES (⟨false, false⟩ : ESState)).esOpen = false
    ∧ (runES (stopES ⟨false, false⟩) [SEvent.connErr]).2
        = (runES (⟨false, false⟩ : ESState) [SEvent.connErr]).2 :=
  ⟨(stop_idempotent_safe ⟨false, false⟩).1,
   ((stop_idempotent_safe ⟨false, false⟩).2 rfl).1,
   ((stop_idempotent_safe ⟨false, false⟩).2 rfl).2 [SEvent.connErr]⟩

/- ===================== C8 ===================== -/

/-- C8: on an empty or whitespace-only prompt, `handleGenerate` sets the
error message, issues no request, and leaves html, jobId, the generating
flag and the stream untouched. -/
theorem empty_prompt_no_request (s : AppState) (res : HttpResponse)
    (h : jsTrim s.prompt = "") :
    handleGenerate s res
      = ({ s with error := "Please describe the business context first." }, [])
    ∧ (handleGenerate s res).1.html = s.html
    ∧ (handleGenerate s res).1.jobId = s.jobId
    ∧ (handleGenerate s res).1.isGenerating = s.isGenerating
    ∧ (handleGenerate s res).1.stream = s.stream := by
  have he : handleGenerate s res
      = ({ s with error := "Please describe the business context first." }, []) := by
    simp [handleGenerate, h]
  exact ⟨he, by rw [he], by rw [he], by rw [he], by rw [he]⟩

theorem empty_prompt_no_request_witness :
    handleGenerate ⟨"   ", "h", none, false, "", ⟨false, false⟩⟩ ⟨true, 200, "j"⟩
      = ({ prompt := "   ", html := "h", jobId := none, isGenerating := false,
           error := "Please describe the business context first.",
           stream := ⟨false, false⟩ }, []) :=
  (empty_prompt_no_request ⟨"   ", "h", none, false, "", ⟨false, false⟩⟩
    ⟨true, 200, "j"⟩ (by decide)).1

/- ===================== C6 ===================== -/

/-- C6: `handleStop` with no job identifier changes nothing and issues no
request; with one it issues exactly the one /stop request, closes the
stream and clears the generating flag (leaving error and html alone), and
its result does not depend on whether the stop request succeeded. -/
theorem handleStop_spec (s : AppState) (b : Bool) :
    (s.jobId = none → handleStop s b = (s, []))
    ∧ (∀ jid : String, s.jobId = some jid →
        handleStop s b
          = ({ s with stream := stopES s.stream, isGenerating := false },
             [stopJobRequest jid])
        ∧ (handleStop s b).1.stream.esOpen = false
        ∧ (handleStop s b).1.error = s.error
        ∧ (handleStop s b).1.html = s.html)
    ∧ handleStop s b = handleStop s (!b) := by
  refine ⟨?_, ?_, rfl⟩
  · intro h; simp [handleStop, h]
  · intro jid h
    have he : handleStop s b
        = ({ s with stream := stopES s.stream, isGenerating := false },
           [stopJobRequest jid]) := by
      simp [handleStop, h]
    exact ⟨he, by rw [he]; rfl, by rw [he], by rw [he]⟩

theorem handleStop_spec_witness :
    (handleStop ⟨"p", "h", none, true, "", ⟨true, false⟩⟩ true
        = (⟨"p", "h", none, true, "", ⟨true, false⟩⟩, []))
    ∧ (handleStop ⟨"p", "h", some "j1", true, "", ⟨true, false⟩⟩ true
        = ({ prompt := "p", html := "h", jobId := some "j1",
             isGenerating := false, error := "",
             stream := stopES ⟨true, false⟩ }, [stopJobRequest "j1"])) :=
  ⟨(handleStop_spec ⟨"p", "h", none, true, "", ⟨true, false⟩⟩ true).1 rfl,
   ((handleStop_spec ⟨"p", "h", some "j1", true, "", ⟨true, false⟩⟩ true).2.1
     "j1" rfl).1⟩

/- ===================== C1 ===================== -/

theorem runApp_chunks (datas : List String) :
    ∀ s : AppState, s.stream.esOpen = true →
      runApp s (datas.map SEvent.chunk)
        = { s with html := datas.foldl (fun acc d => acc ++ d) s.html } := by
  induction datas with
  | nil => intro s _; rfl
  | cons d rest ih =>
      intro s h
      have hd : deliverApp s (SEvent.chunk d) = { s with html := s.html ++ d } := by
        simp [deliverApp, deliverES, h, applyCb]
      simp only [List.map_cons, runApp, hd, List.foldl_cons]
      exact ih { s with html := s.html ++ d } h

/-- C1: after a successful `handleGenerate` (which resets html to the empty
string and opens the stream), delivering any sequence of `chunk` events
leaves the displayed html equal to the in-order concatenation of their data
payloads — nothing dropped, duplicated, or reordered. -/
theorem chunk_stream_concats (s : AppState) (res : HttpResponse)
    (hp : jsTrim s.prompt ≠ "") (hok : res.ok = true) (datas : List String) :
    (runApp (handleGenerate s res).1 (datas.map SEvent.chunk)).html
      = String.join datas := by
  have h1 : (handleGenerate s res).1
      = { s with error := "", html := "", isGenerating := true,
                 jobId := some res.jobId, stream := startES } := by
    simp [handleGenerate, hp, createJob, hok]
  rw [h1, runApp_chunks datas _ rfl]
  rfl

theorem chunk_stream_concats_witness :
    (runApp
      (handleGenerate ⟨"nda", "old", none, false, "", ⟨false, false⟩⟩
        ⟨true, 200, "j1"⟩).1
      (["<h1>A</h1>", "<p>b</p>"].map SEvent.chunk)).html
      = String.join ["<h1>A</h1>", "<p>b</p>"] :=
  chunk_stream_concats ⟨"nda", "old", none, false, "", ⟨false, false⟩⟩
    ⟨true, 200, "j1"⟩ (by decide) rfl ["<h1>A</h1>", "<p>b</p>"]

/- ===================== C2 ===================== -/

/-- C2: a clean termination — `stop` called, or a `done` event on the open
stream — leaves the manager in the closed-and-finished state, and from that
state no later event fires any callback at all; in particular neither the
custom `error` handler nor the native `onerror` handler can run, so a
user-initiated stop is never reported as an error. -/
theorem clean_termination_silences_errors (st : ESState) (evs : List SEvent) :
    stopES st = ⟨false, true⟩
    ∧ (deliverES ⟨true, false⟩ SEvent.done).1 = ⟨false, true⟩
    ∧ (runES (⟨false, true⟩ : ESState) evs).2 = [] := by
  refine ⟨rfl, rfl, ?_⟩
  rw [runES_closed evs ⟨false, true⟩ rfl]

/- ===================== C10 ===================== -/

/-- An error notification reaching the client: either a custom SSE `error`
event (with possibly-empty data) or a native connection error. -/
inductive ErrNote where
  | evt (data : String)
  | conn
deriving Repr, DecidableEq

/-- The SSE event corresponding to an error notification. -/
def ErrNote.toEvent : ErrNote → SEvent
  | ErrNote.evt d => SEvent.errEvt d
  | ErrNote.conn => SEvent.connErr

/-- The message the client displays for an error notification when no
earlier message exists. -/
def ErrNote.msg : ErrNote → String
  | ErrNote.evt d => jsOr d "Streaming error"
  | ErrNote.conn => "Connection lost while streaming."

theorem errNote_msg_ne (n : ErrNote) : n.msg ≠ "" := by
  cases n with
  | evt d =>
      show jsOr d "Streaming error" ≠ ""
      unfold jsOr
      by_cases hd : d = ""
      · rw [if_pos hd]; decide
      · rw [if_neg hd]; exact hd
  | conn => decide

theorem jsOr_default_idem (d dflt : String) (hd : dflt ≠ "") :
    jsOr (jsOr d dflt) dflt = jsOr d dflt := by
  unfold jsOr
  by_cases h : d = ""
  · rw [if_pos h, if_neg hd]
  · rw [if_neg h, if_neg h]

theorem runApp_errnotes_preserve (ns : List ErrNote) :
    ∀ s : AppState, s.stream.esOpen = true → s.stream.finished = false →
      s.error ≠ "" →
      (runApp s (ns.map ErrNote.toEvent)).error = s.error := by
  induction ns with
  | nil => intro s _ _ _; rfl
  | cons n rest ih =>
      intro s ho hf he
      cases n with
      | evt d =>
          have hst : deliverApp s (SEvent.errEvt d) = s := by
            simp [deliverApp, deliverES, ho, hf, applyCb, jsOr, he]
          simp only [List.map_cons, ErrNote.toEvent, runApp, hst]
          exact ih s ho hf he
      | conn =>
          have hst : deliverApp s SEvent.connErr
              = { s with isGenerating := false } := by
            simp [deliverApp, deliverES, ho, hf, applyCb, jsOr, he]
          simp only [List.map_cons, ErrNote.toEvent, runApp, hst]
          exact ih { s with isGenerating := false } ho hf he

/-- C10: from a state with no error message and an open, unfinished stream,
a nonempty sequence of error notifications leaves the displayed error equal
to the first notification's message (with the documented defaults); no
later notification overwrites it. -/
theorem first_error_wins (s : AppState) (n : ErrNote) (ns : List ErrNote)
    (ho : s.stream.esOpen = true) (hf : s.stream.finished = false)
    (he : s.error = "") :
    (runApp s ((n :: ns).map ErrNote.toEvent)).error = n.msg := by
  cases n with
  | evt d =>
      have hst : deliverApp s (SEvent.errEvt d)
          = { s with error := jsOr d "Streaming error" } := by
        simp only [deliverApp, deliverES, ho, if_pos, hf]
        simp [applyCb, he, jsOr_empty, jsOr_default_idem d "Streaming error" (by decide)]
      simp only [List.map_cons, ErrNote.toEvent, runApp, hst]
      exact runApp_errnotes_preserve ns
        { s with error := jsOr d "Streaming error" } ho hf
        (errNote_msg_ne (ErrNote.evt d))
  | conn =>
      have hst : deliverApp s SEvent.connErr
          = { s with error := "Connection lost while streaming.",
                     isGenerating := false } := by
        simp [deliverApp, deliverES, ho, hf, applyCb, he, jsOr]
      simp only [List.map_cons, ErrNote.toEvent, runApp, hst]
      exact runApp_errnotes_preserve ns
        { s with error := "Connection lost while streaming.",
                 isGenerating := false } ho hf
        (show ("Connection lost while streaming." : String) ≠ "" by decide)

theorem first_error_wins_witness :
    (runApp ⟨"p", "", some "j", true, "", ⟨true, false⟩⟩
      (([ErrNote.evt "boom", ErrNote.conn, ErrNote.evt ""]).map
        ErrNote.toEvent)).error
      = (ErrNote.evt "boom").msg :=
  first_error_wins ⟨"p", "", some "j", true, "", ⟨true, false⟩⟩
    (ErrNote.evt "boom") [ErrNote.conn, ErrNote.evt ""] rfl rfl rfl

/- ========= useEventSource.js : instance-level model (C9) ========= -/

/-- The manager's refs viewed at the level of EventSource instances:
`sources` records every EventSource ever constructed as (id, still open?),
`current` is `esRef.current` (the id it holds, if non-null), `finished` is
`finishedRef.current`, and `nextId` supplies fresh ids for
`new EventSource(url)`. -/
structure ESWorld where
  sources : List (Nat × Bool)
  current : Option Nat
  finished : Bool
  nextId : Nat
deriving Repr, DecidableEq

/-- The initial refs: no EventSource constructed yet. -/
def ESWorld.init : ESWorld := ⟨[], none, false, 0⟩

/-- Mark the EventSource with id `i` closed (`es.close()`). -/
def closeSource (l : List (Nat × Bool)) (i : Nat) : List (Nat × Bool) :=
  l.map fun p => if p.1 = i then (p.1, false) else p

/-- Instance-level `stop()`: set finished, close the current source if
there is one, and null the ref. -/
def worldStop (w : ESWorld) : ESWorld :=
  match w.current with
  | some i =>
      { w with finished := true, sources := closeSource w.sources i,
               current := none }
  | none => { w with finished := true }

/-- Instance-level `start(url, handlers)`: first `stop()` (closing any
previous source), then construct a fresh EventSource, store it in the ref
and clear finished. -/
def worldStart (w : ESWorld) : ESWorld :=
  { sources := (worldStop w).sources ++ [((worldStop w).nextId, true)],
    current := some (worldStop w).nextId,
    finished := false,
    nextId := (worldStop w).nextId + 1 }

/-- The manager's public operations. -/
inductive MOp where
  | start
  | stop
deriving Repr, DecidableEq

/-- Run a sequence of start/stop calls. -/
def runWorld (w : ESWorld) : List MOp → ESWorld
  | [] => w
  | MOp.start :: ops => runWorld (worldStart w) ops
  | MOp.stop :: ops => runWorld (worldStop w) ops

/-- How many EventSource instances are currently open. -/
def openCount (w : ESWorld) : Nat := (w.sources.filter fun p => p.2).length

/-- Every open source is the one held by `esRef`. -/
def CurrentOpen (w : ESWorld) : Prop :=
  ∀ p ∈ w.sources, p.2 = true → w.current = some p.1

/-- The preserved invariant: at most one open source, and any open source
is the current one. -/
def WorldInv (w : ESWorld) : Prop := openCount w ≤ 1 ∧ CurrentOpen w

theorem closeSource_closed (l : List (Nat × Bool)) (i : Nat)
    (h : ∀ p ∈ l, p.2 = true → p.1 = i) :
    ∀ p ∈ closeSource l i, p.2 = false := by
  intro p hp
  simp only [closeSource, List.mem_map] at hp
  obtain ⟨q, hq, hqp⟩ := hp
  by_cases hqi : q.1 = i
  · rw [if_pos hqi] at hqp
    rw [← hqp]
  · rw [if_neg hqi] at hqp
    rw [← hqp]
    cases hq2 : q.2 with
    | false => rfl
    | true => exact absurd (h q hq hq2) hqi

theorem worldStop_closes (w : ESWorld) (h : CurrentOpen w) :
    ∀ p ∈ (worldStop w).sources, p.2 = false := by
  cases hc : w.current with
  | none =>
      intro p hp
      simp only [worldStop, hc] at hp
      cases h2 : p.2 with
      | false => rfl
      | true =>
          have h3 := h p hp h2
          rw [hc] at h3
          exact absurd h3 (by simp)
  | some i =>
      have hall : ∀ p ∈ w.sources, p.2 = true → p.1 = i := by
        intro p hp h2
        have h3 := h p hp h2
        rw [hc] at h3
        exact (Option.some_inj.mp h3).symm
      intro p hp
      simp only [worldStop, hc] at hp
      exact closeSource_closed w.sources i hall p hp

theorem noOpen_filter (l : List (Nat × Bool)) (h : ∀ p ∈ l, p.2 = false) :
    (l.filter fun p => p.2) = [] := by
  induction l with
  | nil => rfl
  | cons q t ih =>
      have hq := h q (by simp)
      rw [List.filter_cons]
      simp only [hq]
      exact ih fun p hp => h p (List.mem_cons_of_mem q hp)

theorem worldStop_inv (w : ESWorld) (h : WorldInv w) : WorldInv (worldStop w) := by
  have hcl := worldStop_closes w h.2
  constructor
  · unfold openCount
    rw [noOpen_filter _ hcl]
    exact Nat.zero_le 1
  · intro p hp h2
    rw [hcl p hp] at h2
    exact absurd h2 (by simp)

theorem worldStart_inv (w : ESWorld) (h : WorldInv w) :
    WorldInv (worldStart w) := by
  have hcl := worldStop_closes w h.2
  constructor
  · unfold openCount worldStart
    rw [List.filter_append, noOpen_filter _ hcl]
    simp
  · intro p hp h2
    simp only [worldStart, List.mem_append, List.mem_singleton] at hp
    cases hp with
    | inl hp1 =>
        rw [hcl p hp1] at h2
        exact absurd h2 (by simp)
    | inr hp2 =>
        show (worldStart w).current = some p.1
        rw [hp2]
        rfl

theorem runWorld_inv (ops : List MOp) :
    ∀ w : ESWorld, WorldInv w → WorldInv (runWorld w ops) := by
  induction ops with
  | nil => intro w h; exact h
  | cons op rest ih =>
      intro w h
      cases op with
      | start => exact ih (worldStart w) (worldStart_inv w h)
      | stop => exact ih (worldStop w) (worldStop_inv w h)

/-- C9: along any sequence of the manager's start/stop calls from the
initial state, at most one EventSource instance is open — a second start
replaces the first stream rather than leaking it. -/
theorem at_most_one_eventsource (ops : List MOp) :
    openCount (runWorld ESWorld.init ops) ≤ 1 :=
  (runWorld_inv ops ESWorld.init
    ⟨Nat.zero_le 1, fun p hp _ => absurd hp (List.not_mem_nil p)⟩).1

/- ========= backend (not under src/): C3 and C4, modelled from spec ========= -/

/-- A call-order observation of the backend pipeline around Stage 5. -/
inductive PCall where
  | outlinePub
  | frontPub
  | anchorStart
  | anchorDone
  | sectionStart (idx : Nat)
deriving Repr, DecidableEq

/-- Modelled from the spec: the Stage-5 scheduling of
`backend/contract_pipeline_v3.py` is not present under src/. Per the spec,
the orchestrator publishes the outline and front-matter context, then
drafts the anchor section synchronously to completion, and only then
initiates the remaining sections' draft calls (`others` lists their outline
indices). -/
def stage5Schedule (others : List Nat) : List PCall :=
  PCall.outlinePub :: PCall.frontPub :: PCall.anchorStart :: PCall.anchorDone ::
    others.map PCall.sectionStart

/-- C3: in the modelled schedule, the outline and front-matter publications
occupy positions 0 and 1, the anchor draft starts at position 2 and
completes at position 3, and every non-anchor section draft call sits
strictly after the anchor's completion — the hard ordering barrier. -/
theorem anchor_barrier (others : List Nat) (k j : Nat)
    (hk : (stage5Schedule others)[k]? = some (PCall.sectionStart j)) :
    3 < k
    ∧ (stage5Schedule others)[0]? = some PCall.outlinePub
    ∧ (stage5Schedule others)[1]? = some PCall.frontPub
    ∧ (stage5Schedule others)[2]? = some PCall.anchorStart
    ∧ (stage5Schedule others)[3]? = some PCall.anchorDone := by
  refine ⟨?_, by simp [stage5Schedule], by simp [stage5Schedule],
    by simp [stage5Schedule], by simp [stage5Schedule]⟩
  rcases k with _ | _ | _ | _ | m
  · simp [stage5Schedule] at hk
  · simp [stage5Schedule] at hk
  · simp [stage5Schedule] at hk
  · simp [stage5Schedule] at hk
  · omega

theorem anchor_barrier_witness :
    3 < 4
    ∧ (stage5Schedule [5, 6])[0]? = some PCall.outlinePub
    ∧ (stage5Schedule [5, 6])[4]? = some (PCall.sectionStart 5) :=
  ⟨(anchor_barrier [5, 6] 4 5 rfl).1, (anchor_barrier [5, 6] 4 5 rfl).2.1, rfl⟩

/-- Configured outline minimum (backend/config.py OUTLINE_MIN_SECTIONS;
spec: 10–16 sections). -/
def OUTLINE_MIN_SECTIONS : Nat := 10

/-- Configured outline maximum (spec: 10–16 sections). -/
def OUTLINE_MAX_SECTIONS : Nat := 16

/-- Modelled from the spec: the Stage-3 outline clamp of
`backend/contract_pipeline_v3.py` is not present under src/. Per the spec,
if the Generation Service returns more sections than the maximum the
surplus is truncated from the end; if it returns fewer than the minimum the
job fails rather than being padded. -/
def clampOutline (sections : List String) : Except String (List String) :=
  if sections.length < OUTLINE_MIN_SECTIONS then
    Except.error "outline returned fewer sections than the configured minimum"
  else
    Except.ok (sections.take OUTLINE_MAX_SECTIONS)

/-- C4: the modelled outline clamp fails the job on fewer than the minimum
number of sections, and otherwise returns the first `OUTLINE_MAX_SECTIONS`
sections (truncating the surplus from the end, keeping outline order), a
result whose length always lies within the configured 10–16 bounds. -/
theorem outline_clamped (xs : List String) :
    (xs.length < OUTLINE_MIN_SECTIONS →
      clampOutline xs
        = Except.error "outline returned fewer sections than the configured minimum")
    ∧ (OUTLINE_MIN_SECTIONS ≤ xs.length →
        clampOutline xs = Except.ok (xs.take OUTLINE_MAX_SECTIONS)
        ∧ OUTLINE_MIN_SECTIONS ≤ (xs.take OUTLINE_MAX_SECTIONS).length
        ∧ (xs.take OUTLINE_MAX_SECTIONS).length ≤ OUTLINE_MAX_SECTIONS
        ∧ xs.take OUTLINE_MAX_SECTIONS ++ xs.drop OUTLINE_MAX_SECTIONS = xs) := by
  constructor
  · intro h
    simp [clampOutline, h]
  · intro h
    have hn : ¬ xs.length < OUTLINE_MIN_SECTIONS := Nat.not_lt.mpr h
    refine ⟨by simp [clampOutline, hn], ?_, ?_, List.take_append_drop _ _⟩
    · rw [List.length_take]
      simp only [OUTLINE_MIN_SECTIONS, OUTLINE_MAX_SECTIONS] at h ⊢
      omega
    · rw [List.length_take]
      simp only [OUTLINE_MAX_SECTIONS]
      omega

theorem outline_clamped_witness :
    (clampOutline ["a"]
        = Except.error "outline returned fewer sections than the configured minimum")
    ∧ (clampOutline (List.replicate 20 "s")
        = Except.ok ((List.replicate 20 "s").take OUTLINE_MAX_SECTIONS)) :=
  ⟨(outline_clamped ["a"]).1 (by decide),
   ((outline_clamped (List.replicate 20 "s")).2 (by decide)).1⟩

end ContractGen
